import Mathlib

/-!
Shallow embedding of `oc-manage.py` (OpenShift namespace report script).

External `oc` subprocess invocations are modelled as explicit response values
of type `Except Unit OcData` supplied through an `Env` record: a successful
invocation whose stdout parses as JSON yields `.ok data`, and a non-zero exit
or unparsable output yields `.error ()`.  JSON objects are modelled as
structures whose possibly-missing keys are `Option` fields.  Wall-clock time
is modelled as an integer count of seconds supplied in the environment, and
`datetime.strptime` parsing of a creation timestamp is modelled as an
explicit parameter `parse : String → Option Int` returning epoch seconds
(`none` for a malformed timestamp, which in Python raises `ValueError`).
-/

namespace OcManage

/-- The fixed stylesheet URL constant `BOOTSTRAP_CDN` of the script. -/
def BOOTSTRAP_CDN : String :=
  "https://cdn.jsdelivr.net/npm/bootstrap@5.3.0/dist/css/bootstrap.min.css"

/-- The `metadata` object of an item; `name` and `creationTimestamp` keys may
be absent. -/
structure Metadata where
  name : Option String
  creationTimestamp : Option String
deriving DecidableEq

/-- The `status` object of an item; `replicas` and `phase` keys may be
absent. -/
structure Status where
  replicas : Option Int
  phase : Option String
deriving DecidableEq

/-- One element of the `items` array of an `oc get ... -o json` response. -/
structure Item where
  metadata : Option Metadata
  status : Option Status
deriving DecidableEq

/-- A parsed JSON document returned by `oc`; the top-level `items` key may be
absent. -/
structure OcData where
  items : Option (List Item)
deriving DecidableEq

/-- Outcome of one `oc` invocation plus `json.loads`: `.error ()` models a
`CalledProcessError` (non-zero exit) or a `JSONDecodeError` (unparsable
stdout). -/
abbrev OcResponse := Except Unit OcData

/-- Python `d[k]`-style mandatory key access: raises (propagates an error)
when the key is absent. -/
def req {α : Type} (o : Option α) : Except Unit α :=
  match o with
  | some a => Except.ok a
  | none => Except.error ()

/-- Left-to-right fail-fast effectful map, modelling a Python list
comprehension whose body may raise: the first raising element aborts the
whole comprehension. -/
def mapME {α β : Type} (f : α → Except Unit β) : List α → Except Unit (List β)
  | [] => Except.ok []
  | a :: as => do
    let b ← f a
    let bs ← mapME f as
    pure (b :: bs)

/-- `get_age`, as a function of the elapsed delta `now - created` in seconds.
Python's `timedelta` normalizes so that `delta.days` is the floor of
`total/86400` (negative for a future timestamp) and `delta.seconds` is the
non-negative remainder in `[0, 86400)`; integer `/` and `%` on `Int`
(Euclidean division) by a positive constant have exactly these semantics,
and `//` on `delta.seconds` in Python coincides with them since the operand
is non-negative. -/
def get_age (delta : Int) : String :=
  let days := delta / 86400
  let seconds := delta % 86400
  let hours := seconds / 3600
  let minutes := (seconds % 3600) / 60
  if days > 0 then toString days ++ "d " ++ toString hours ++ "h"
  else if hours > 0 then toString hours ++ "h " ++ toString minutes ++ "m"
  else toString minutes ++ "m"

/-- `get_namespaces`: parses the namespace listing response, extracts
`item["metadata"]["name"]` for every item (any missing key propagates as an
error, as does a failed invocation), then applies the Python truthiness test
`if target_namespaces:` — `None` and the empty list both mean "no filter". -/
def get_namespaces (resp : OcResponse) (target_namespaces : Option (List String)) :
    Except Unit (List String) := do
  let data ← resp
  let items ← req data.items
  let all_ns ← mapME (fun item => do
      let md ← req item.metadata
      req md.name) items
  match target_namespaces with
  | some t =>
    if t.isEmpty then pure all_ns
    else pure (all_ns.filter (fun ns => t.contains ns))
  | none => pure all_ns

/-- A row of the DeploymentConfigs table: `name`, `replicas`, `age`. -/
structure DCSummary where
  name : String
  replicas : Int
  age : String
deriving DecidableEq

/-- A row of the Pods table: `name`, `status` (phase), `age`. -/
structure PodSummary where
  name : String
  status : String
  age : String
deriving DecidableEq

/-- The dict built for one deployment-config item: `item["metadata"]["name"]`
raises when absent; `item.get("status", {}).get("replicas", 0)` defaults to 0
when `status` or `status.replicas` is absent; the creation timestamp raises
when absent or malformed. -/
def dcItem (parse : String → Option Int) (now : Int) (item : Item) :
    Except Unit DCSummary := do
  let md ← req item.metadata
  let name ← req md.name
  let ts ← req md.creationTimestamp
  let created ← req (parse ts)
  pure ⟨name, (item.status.bind (fun s => s.replicas)).getD 0, get_age (now - created)⟩

/-- The body of the `try` block of `get_deploymentconfigs`:
`data.get("items", [])` defaults to the empty list, and the comprehension is
fail-fast. -/
def dcBody (parse : String → Option Int) (now : Int) (resp : OcResponse) :
    Except Unit (List DCSummary) := do
  let data ← resp
  mapME (dcItem parse now) (data.items.getD [])

/-- `get_deploymentconfigs`: the bare `except Exception: return []` converts
any failure of the body into the empty list. -/
def get_deploymentconfigs (parse : String → Option Int) (now : Int) (resp : OcResponse) :
    List DCSummary :=
  match dcBody parse now resp with
  | Except.ok l => l
  | Except.error _ => []

/-- The dict built for one pod item: `item["status"]["phase"]` raises when
`status` or `phase` is absent (no default, unlike deployment configs). Field
evaluation order follows the Python dict literal: name, phase, age. -/
def podItem (parse : String → Option Int) (now : Int) (item : Item) :
    Except Unit PodSummary := do
  let md ← req item.metadata
  let name ← req md.name
  let st ← req item.status
  let phase ← req st.phase
  let ts ← req md.creationTimestamp
  let created ← req (parse ts)
  pure ⟨name, phase, get_age (now - created)⟩

/-- The body of the `try` block of `get_pods`. -/
def podBody (parse : String → Option Int) (now : Int) (resp : OcResponse) :
    Except Unit (List PodSummary) := do
  let data ← resp
  mapME (podItem parse now) (data.items.getD [])

/-- `get_pods`: the bare `except Exception: return []` converts any failure
of the body into the empty list. -/
def get_pods (parse : String → Option Int) (now : Int) (resp : OcResponse) :
    List PodSummary :=
  match podBody parse now resp with
  | Except.ok l => l
  | Except.error _ => []

/-- The per-namespace entry of `report_data`: both keys are always assigned
in the same loop iteration. -/
structure NsData where
  deploymentconfigs : List DCSummary
  pods : List PodSummary
deriving DecidableEq

/-- `report_data` as an insertion-ordered dictionary (Python 3 dicts preserve
insertion order). -/
abbrev ReportData := List (String × NsData)

/-- Python dict assignment `d[k] = v`: overwrite in place when the key is
present (keeping its original position), else append. -/
def dictInsert : ReportData → String → NsData → ReportData
  | [], k, v => [(k, v)]
  | p :: ps, k, v => if p.1 == k then (k, v) :: ps else p :: dictInsert ps k v

/-- Python dict read `d.get(k)`. -/
def dictLookup : ReportData → String → Option NsData
  | [], _ => none
  | p :: ps, k => if p.1 == k then some p.2 else dictLookup ps k

/-- The report-building loop shared by `main_cli` and `main_ansible`: for
each namespace in order, assign `deploymentconfigs` and `pods` entries. -/
def buildReportData (dcFetch : String → List DCSummary)
    (podFetch : String → List PodSummary) (ns_list : List String) : ReportData :=
  ns_list.foldl (fun d ns => dictInsert d ns ⟨dcFetch ns, podFetch ns⟩) []

/-- One deployment-config table row of the HTML report. -/
def dcRow (dc : DCSummary) : String :=
  "<tr><td>" ++ dc.name ++ "</td><td>" ++ toString dc.replicas ++ "</td><td>" ++
    dc.age ++ "</td></tr>"

/-- One pod table row of the HTML report. -/
def podRow (pod : PodSummary) : String :=
  "<tr><td>" ++ pod.name ++ "</td><td>" ++ pod.status ++ "</td><td>" ++
    pod.age ++ "</td></tr>"

/-- One namespace section of the HTML report: heading, DeploymentConfigs
table, Pods table. -/
def nsSection (ns : String) (nsdata : NsData) : String :=
  "<h2 class=\"mt-4\">" ++ ns ++ "</h2>" ++
  "<h4>DeploymentConfigs</h4>" ++
  "<table class=\"table table-striped table-bordered\"><thead><tr><th>Name</th><th>Replicas</th><th>Age</th></tr></thead><tbody>" ++
  String.join (nsdata.deploymentconfigs.map dcRow) ++
  "</tbody></table>" ++
  "<h4>Pods</h4>" ++
  "<table class=\"table table-striped table-bordered\"><thead><tr><th>Name</th><th>Status</th><th>Age</th></tr></thead><tbody>" ++
  String.join (nsdata.pods.map podRow) ++
  "</tbody></table>"

/-- The fixed part of the report header, up to and including the
`Generated: ` label after which the build-time timestamp is interpolated. -/
def fixedHead : String :=
  "<!DOCTYPE html>\n<html lang=\"en\">\n<head>\n  <meta charset=\"utf-8\">\n  <title>OpenShift Namespace Report</title>\n  <link rel=\"stylesheet\" href=\"" ++
  BOOTSTRAP_CDN ++
  "\">\n</head>\n<body>\n<div class=\"container my-4\">\n  <h1 class=\"mb-4\">OpenShift Namespace Report</h1>\n  <p>Generated: "

/-- `build_report`, parameterized by the formatted build-time timestamp
string (`datetime.now().strftime(...)` in the script). -/
def build_report (now_str : String) (data : ReportData) : String :=
  fixedHead ++ now_str ++ "</p>\n" ++
  String.join (data.map (fun p => nsSection p.1 p.2)) ++
  "</div></body></html>"

/-- The external world of one run: the namespace-listing response, the
per-namespace deployment-config and pod responses, the timestamp parser, the
current time in epoch seconds, and the formatted build-time timestamp. -/
structure Env where
  nsResp : OcResponse
  dcResp : String → OcResponse
  podResp : String → OcResponse
  parseTs : String → Option Int
  now : Int
  nowStr : String

/-- The three-stage pipeline shared verbatim by `main_cli` and
`main_ansible`: list namespaces (errors propagate), build `report_data`,
render the HTML. -/
def pipeline (env : Env) (target : Option (List String)) : Except Unit String := do
  let ns_list ← get_namespaces env.nsResp target
  let report_data := buildReportData
    (fun ns => get_deploymentconfigs env.parseTs env.now (env.dcResp ns))
    (fun ns => get_pods env.parseTs env.now (env.podResp ns)) ns_list
  pure (build_report env.nowStr report_data)

/-- `main_cli` up to the output step: `args.namespaces.split(",") if
args.namespaces else None` — the empty string is falsy and means "no
filter". The returned string is the HTML document (printed or written to the
output file by the caller). -/
def main_cli_core (env : Env) (namespacesArg : Option String) : Except Unit String :=
  let target : Option (List String) :=
    match namespacesArg with
    | some s => if s = "" then none else some (s.splitOn ",")
    | none => none
  pipeline env target

/-- The argument object read from `ANSIBLE_MODULE_ARGS`: `namespaces` and
`output` keys are optional. -/
structure AnsibleArgs where
  namespaces : Option (List String)
  output : Option String

/-- The JSON result object printed by `main_ansible`. -/
structure AnsibleResult where
  changed : Bool
  msg : Option String
  report : Option String
deriving DecidableEq

/-- `main_ansible`: runs the pipeline, then branches on the Python
truthiness of `output` (`None` and the empty string are falsy): a truthy
path yields `changed: true` with a confirmation message, otherwise
`changed: false` with the HTML in `report`. -/
def main_ansible_core (env : Env) (args : AnsibleArgs) : Except Unit AnsibleResult := do
  let html ← pipeline env args.namespaces
  match args.output with
  | some out =>
    if out = "" then pure ⟨false, none, some html⟩
    else pure ⟨true, some ("Report written to " ++ out), none⟩
  | none => pure ⟨false, none, some html⟩

/-! Helper simp lemmas for reducing `do`-notation over `Except`. -/

@[simp] theorem okBind {e a b : Type} (x : a) (f : a → Except e b) :
    (Except.ok x >>= f) = f x := rfl

@[simp] theorem errorBind {e a b : Type} (err : e) (f : a → Except e b) :
    ((Except.error err : Except e a) >>= f) = Except.error err := rfl

@[simp] theorem pureExcept {e a : Type} (x : a) : (pure x : Except e a) = Except.ok x := rfl

@[simp] theorem req_some {a : Type} (x : a) : req (some x) = Except.ok x := rfl

@[simp] theorem req_none {a : Type} : req (none : Option a) = Except.error () := rfl

/-! Helper lemmas: the three branches of `get_age`. -/

theorem get_age_days (d : Int) (h : d / 86400 > 0) :
    get_age d = toString (d / 86400) ++ "d " ++ toString (d % 86400 / 3600) ++ "h" := by
  simp only [get_age]
  rw [if_pos h]

theorem get_age_hours (d : Int) (h : ¬ d / 86400 > 0) (h2 : d % 86400 / 3600 > 0) :
    get_age d = toString (d % 86400 / 3600) ++ "h " ++
      toString (d % 86400 % 3600 / 60) ++ "m" := by
  simp only [get_age]
  rw [if_neg h, if_pos h2]

theorem get_age_minutes (d : Int) (h : ¬ d / 86400 > 0) (h2 : ¬ d % 86400 / 3600 > 0) :
    get_age d = toString (d % 86400 % 3600 / 60) ++ "m" := by
  simp only [get_age]
  rw [if_neg h, if_neg h2]

/-- C2: for every non-negative elapsed time `t` seconds, `get_age` renders
days+hours when `t ≥ 86400`, hours+minutes when `3600 ≤ t < 86400`, and
minutes only when `t < 3600`; the offsets 0s, 59s, 60s, 3599s, 3600s,
86399s, 90000s render as "0m", "0m", "1m", "59m", "1h 0m", "23h 59m",
"1d 1h" respectively, and exactly 0 elapsed minutes renders as "0m". -/
theorem C2_get_age_two_unit_format (t : Nat) :
    (86400 ≤ t → get_age (t : Int) =
      toString ((t / 86400 : Nat) : Int) ++ "d " ++
      toString ((t % 86400 / 3600 : Nat) : Int) ++ "h")
  ∧ (3600 ≤ t → t < 86400 → get_age (t : Int) =
      toString ((t / 3600 : Nat) : Int) ++ "h " ++
      toString ((t % 3600 / 60 : Nat) : Int) ++ "m")
  ∧ (t < 3600 → get_age (t : Int) = toString ((t / 60 : Nat) : Int) ++ "m")
  ∧ get_age 0 = "0m" ∧ get_age 59 = "0m" ∧ get_age 60 = "1m"
  ∧ get_age 3599 = "59m" ∧ get_age 3600 = "1h 0m"
  ∧ get_age 86399 = "23h 59m" ∧ get_age 90000 = "1d 1h" := by
  refine ⟨?_, ?_, ?_, rfl, rfl, rfl, rfl, rfl, rfl, rfl⟩
  · intro h
    rw [get_age_days _ (by omega)]
    have e1 : (t : Int) / 86400 = ((t / 86400 : Nat) : Int) := by omega
    have e2 : (t : Int) % 86400 / 3600 = ((t % 86400 / 3600 : Nat) : Int) := by omega
    rw [e1, e2]
  · intro h1 h2
    rw [get_age_hours _ (by omega) (by omega)]
    have e1 : (t : Int) % 86400 / 3600 = ((t / 3600 : Nat) : Int) := by omega
    have e2 : (t : Int) % 86400 % 3600 / 60 = ((t % 3600 / 60 : Nat) : Int) := by omega
    rw [e1, e2]
  · intro h1
    rw [get_age_minutes _ (by omega) (by omega)]
    have e : (t : Int) % 86400 % 3600 / 60 = ((t / 60 : Nat) : Int) := by omega
    rw [e]

/-- C2 witness: instantiating the threshold statement at 90000 seconds. -/
theorem C2_get_age_two_unit_format_witness : get_age ((90000 : Nat) : Int) = "1d 1h" := by
  have h := (C2_get_age_two_unit_format 90000).1 (by norm_num)
  exact h.trans (by decide)

/-- C10 counterexample: for a timestamp 86399 seconds in the future the day
count is indeed -1 and the seconds component wraps to 1, but the result is
rendered by the minutes-only branch as "0m" — a zero age — not as the
hours-and-minutes rendering the claim asserts for every `0 < t < 86400`. -/
theorem C10_counterexample :
    (-86399 : Int) / 86400 = -1
  ∧ (-86399 : Int) % 86400 = 1
  ∧ get_age (-86399) = "0m"
  ∧ get_age (-86399) ≠
      toString ((1 : Int) / 3600) ++ "h " ++ toString ((1 : Int) % 3600 / 60) ++ "m" := by
  refine ⟨by decide, by decide, by decide, by decide⟩

/-- C10 (amended): for every well-formed timestamp lying strictly in the
future by `t` seconds with `0 < t < 86400`, the day count of the difference
is -1 (so the days branch is not taken) and the seconds component wraps to
`86400 - t`; this is rendered as hours and minutes when `86400 - t ≥ 3600`
(that is, `t ≤ 82800`), but as minutes only — possibly the zero age "0m" —
when `t > 82800`; a timestamp 1 second in the future renders as
"23h 59m". -/
theorem C10_future_timestamp_wraparound (t : Int) (h1 : 0 < t) (h2 : t < 86400) :
    (-t) / 86400 = -1
  ∧ (-t) % 86400 = 86400 - t
  ∧ (t ≤ 82800 → get_age (-t) =
      toString ((86400 - t) / 3600) ++ "h " ++ toString ((86400 - t) % 3600 / 60) ++ "m")
  ∧ (82800 < t → get_age (-t) = toString ((86400 - t) / 60) ++ "m")
  ∧ get_age (-1) = "23h 59m" := by
  refine ⟨by omega, by omega, ?_, ?_, by decide⟩
  · intro h3
    rw [get_age_hours _ (by omega) (by omega)]
    have e1 : (-t) % 86400 / 3600 = (86400 - t) / 3600 := by omega
    have e2 : (-t) % 86400 % 3600 / 60 = (86400 - t) % 3600 / 60 := by omega
    rw [e1, e2]
  · intro h3
    rw [get_age_minutes _ (by omega) (by omega)]
    have e : (-t) % 86400 % 3600 / 60 = (86400 - t) / 60 := by omega
    rw [e]

/-- C10 witness: instantiating the wraparound statement at 1 second. -/
theorem C10_future_timestamp_wraparound_witness : get_age (-1) = "23h 59m" :=
  (C10_future_timestamp_wraparound 1 (by decide) (by decide)).2.2.2.2

/-- C1: when the namespace listing succeeds with sequence `L`, a provided
non-empty filter `F` yields exactly the elements of `L` that are members of
`F`, in `L`'s order; an empty filter (Python-falsy) yields all of `L`
unchanged, as does an absent one (which is the hypothesis itself). -/
theorem C1_namespace_filter (resp : OcResponse) (F L : List String)
    (h : get_namespaces resp none = Except.ok L) :
    (F ≠ [] → get_namespaces resp (some F) = Except.ok (L.filter (fun ns => F.contains ns)))
  ∧ get_namespaces resp (some []) = Except.ok L := by
  cases resp with
  | error e => simp [get_namespaces] at h
  | ok data =>
    cases hi : data.items with
    | none => simp [get_namespaces, hi] at h
    | some items =>
      cases hm : mapME (fun item => do
          let md ← req item.metadata
          req md.name) items with
      | error e => simp [get_namespaces, hi, hm] at h
      | ok all_ns =>
        have hL : all_ns = L := by
          simp [get_namespaces, hi, hm] at h
          exact h
        subst hL
        constructor
        · intro hF
          have hFe : F.isEmpty = false := by
            cases F with
            | nil => exact absurd rfl hF
            | cons a as => rfl
          simp [get_namespaces, hi, hm, hFe]
        · simp [get_namespaces, hi, hm]

/-- C1 witness: a two-namespace cluster listing filtered to one name. -/
theorem C1_namespace_filter_witness :
    get_namespaces
      (Except.ok ⟨some [⟨some ⟨some "a", none⟩, none⟩, ⟨some ⟨some "b", none⟩, none⟩]⟩)
      (some ["b"]) = Except.ok ["b"] := by
  have h := (C1_namespace_filter
    (Except.ok ⟨some [⟨some ⟨some "a", none⟩, none⟩, ⟨some ⟨some "b", none⟩, none⟩]⟩)
    ["b"] ["a", "b"] rfl).1 (by decide)
  exact h.trans rfl

/-- If one element of the list makes the comprehension body raise, the whole
comprehension raises. -/
theorem mapME_error_of_mem {α β : Type} (f : α → Except Unit β) (l : List α) (x : α)
    (hx : x ∈ l) (hf : f x = Except.error ()) : mapME f l = Except.error () := by
  induction l with
  | nil => cases hx
  | cons a as ih =>
    cases hx with
    | head => simp [mapME, hf]
    | tail _ hmem =>
      cases ha : f a with
      | error e => simp [mapME, ha]
      | ok b => simp [mapME, ha, ih hmem]

/-- C3: both per-namespace fetchers convert every failure of their `try`
body — a failed or unparsable client invocation, a raising item (missing
fields), or a malformed creation timestamp — into the empty list instead of
propagating the error. -/
theorem C3_fetch_failure_yields_empty (parse : String → Option Int) (now : Int)
    (resp : OcResponse) :
    (∀ e, dcBody parse now resp = Except.error e →
       get_deploymentconfigs parse now resp = [])
  ∧ (∀ e, podBody parse now resp = Except.error e → get_pods parse now resp = [])
  ∧ (resp = Except.error () →
       get_deploymentconfigs parse now resp = [] ∧ get_pods parse now resp = [])
  ∧ (∀ d item, resp = Except.ok d → item ∈ d.items.getD [] →
       dcItem parse now item = Except.error () →
       get_deploymentconfigs parse now resp = [])
  ∧ (∀ d item, resp = Except.ok d → item ∈ d.items.getD [] →
       podItem parse now item = Except.error () → get_pods parse now resp = [])
  ∧ (∀ item, item.metadata = none →
       dcItem parse now item = Except.error () ∧ podItem parse now item = Except.error ())
  ∧ (∀ item md n ts, item.metadata = some md → md.name = some n →
       md.creationTimestamp = some ts → parse ts = none →
       dcItem parse now item = Except.error ()) := by
  refine ⟨?_, ?_, ?_, ?_, ?_, ?_, ?_⟩
  · intro e h
    simp [get_deploymentconfigs, h]
  · intro e h
    simp [get_pods, h]
  · intro h
    subst h
    exact ⟨by simp [get_deploymentconfigs, dcBody], by simp [get_pods, podBody]⟩
  · intro d item hr hmem hitem
    subst hr
    have hb : dcBody parse now (Except.ok d) = Except.error () := by
      simp [dcBody, mapME_error_of_mem (dcItem parse now) _ item hmem hitem]
    simp [get_deploymentconfigs, hb]
  · intro d item hr hmem hitem
    subst hr
    have hb : podBody parse now (Except.ok d) = Except.error () := by
      simp [podBody, mapME_error_of_mem (podItem parse now) _ item hmem hitem]
    simp [get_pods, hb]
  · intro item hmd
    exact ⟨by simp [dcItem, hmd], by simp [podItem, hmd]⟩
  · intro item md n ts hmd hn hts hp
    simp [dcItem, hmd, hn, hts, hp]

/-- C3 witness: a failed client invocation yields empty results from both
fetchers. -/
theorem C3_fetch_failure_yields_empty_witness :
    get_deploymentconfigs (fun _ => none) 0 (Except.error ()) = []
  ∧ get_pods (fun _ => none) 0 (Except.error ()) = [] :=
  (C3_fetch_failure_yields_empty (fun _ => none) 0 (Except.error ())).2.2.1 rfl

/-- C4: when the namespace listing itself fails, the error propagates out of
`get_namespaces` uncaught through the whole pipeline and both entry points,
so no report is produced. -/
theorem C4_namespace_listing_failure_fatal (env : Env) (target : Option (List String))
    (namespacesArg : Option String) (args : AnsibleArgs)
    (h : env.nsResp = Except.error ()) :
    get_namespaces env.nsResp target = Except.error ()
  ∧ pipeline env target = Except.error ()
  ∧ main_cli_core env namespacesArg = Except.error ()
  ∧ main_ansible_core env args = Except.error () := by
  have hg : ∀ tg, get_namespaces env.nsResp tg = Except.error () := by
    intro tg
    simp [get_namespaces, h]
  refine ⟨hg target, ?_, ?_, ?_⟩
  · simp [pipeline, hg]
  · simp [main_cli_core, pipeline, hg]
  · simp [main_ansible_core, pipeline, hg]

/-- C4 witness: a concrete run whose namespace listing fails produces an
error from both entry points rather than a report. -/
theorem C4_namespace_listing_failure_fatal_witness :
    main_cli_core
      ⟨Except.error (), fun _ => Except.error (), fun _ => Except.error (),
       fun _ => none, 0, "T"⟩ none = Except.error ()
  ∧ main_ansible_core
      ⟨Except.error (), fun _ => Except.error (), fun _ => Except.error (),
       fun _ => none, 0, "T"⟩ ⟨none, none⟩ = Except.error () :=
  ⟨(C4_namespace_listing_failure_fatal _ none none ⟨none, none⟩ rfl).2.2.1,
   (C4_namespace_listing_failure_fatal _ none none ⟨none, none⟩ rfl).2.2.2⟩

/-- Looking up a key after a dict assignment: the assigned key reads back
the assigned value; other keys are unaffected. -/
theorem dictLookup_dictInsert (d : ReportData) (ns k : String) (v : NsData) :
    dictLookup (dictInsert d ns v) k = if k = ns then some v else dictLookup d k := by
  induction d with
  | nil =>
    by_cases h : k = ns
    · subst h
      simp [dictInsert, dictLookup]
    · simp [dictInsert, dictLookup, h, Ne.symm h]
  | cons p ps ih =>
    by_cases hp : p.1 = ns
    · by_cases h : k = ns
      · subst h
        simp [dictInsert, dictLookup, hp]
      · simp [dictInsert, dictLookup, hp, h, Ne.symm h]
    · by_cases h : k = ns
      · subst h
        simp [dictInsert, dictLookup, hp, ih, Ne.symm hp]
      · by_cases hpk : p.1 = k
        · simp [dictInsert, dictLookup, hp, hpk, h, ih]
        · simp [dictInsert, dictLookup, hp, hpk, h, ih]

/-- Characterization of the report-building loop: a key reads back exactly
the entry computed for it by the two fetchers when it occurs in the
namespace list, and is absent otherwise (duplicate occurrences overwrite
with the same value, since the entry is a function of the key alone). -/
theorem buildReportData_lookup (dcF : String → List DCSummary)
    (podF : String → List PodSummary) (ns_list : List String) (k : String) :
    dictLookup (buildReportData dcF podF ns_list) k =
      if k ∈ ns_list then some ⟨dcF k, podF k⟩ else none := by
  suffices h : ∀ d0 : ReportData,
      dictLookup (ns_list.foldl (fun d ns => dictInsert d ns ⟨dcF ns, podF ns⟩) d0) k =
        if k ∈ ns_list then some ⟨dcF k, podF k⟩ else dictLookup d0 k by
    simpa [buildReportData, dictLookup] using h []
  induction ns_list with
  | nil =>
    intro d0
    simp
  | cons ns rest ih =>
    intro d0
    simp only [List.foldl_cons]
    rw [ih]
    by_cases hk : k ∈ rest
    · simp [hk]
    · by_cases he : k = ns
      · subst he
        simp [hk, dictLookup_dictInsert]
      · simp [hk, he, dictLookup_dictInsert]

/-- C5: the report-data dictionary handed to the report builder has exactly
the lister's namespaces as keys, and every key maps to an entry that carries
both a `deploymentconfigs` sequence and a `pods` sequence — the ones the
respective fetchers computed for that namespace — never a missing key. -/
theorem C5_report_data_shape (dcF : String → List DCSummary)
    (podF : String → List PodSummary) (ns_list : List String) :
    (∀ k, (dictLookup (buildReportData dcF podF ns_list) k).isSome = true ↔ k ∈ ns_list)
  ∧ (∀ k, k ∈ ns_list →
      dictLookup (buildReportData dcF podF ns_list) k = some ⟨dcF k, podF k⟩)
  ∧ (∀ k nsd, dictLookup (buildReportData dcF podF ns_list) k = some nsd →
      nsd.deploymentconfigs = dcF k ∧ nsd.pods = podF k) := by
  refine ⟨?_, ?_, ?_⟩
  · intro k
    rw [buildReportData_lookup]
    by_cases hk : k ∈ ns_list <;> simp [hk]
  · intro k hk
    rw [buildReportData_lookup]
    simp [hk]
  · intro k nsd h
    rw [buildReportData_lookup] at h
    by_cases hk : k ∈ ns_list
    · rw [if_pos hk] at h
      cases h
      exact ⟨rfl, rfl⟩
    · rw [if_neg hk] at h
      cases h

/-- C5 witness: a one-namespace run has that namespace as a key with both
sequences present. -/
theorem C5_report_data_shape_witness :
    dictLookup (buildReportData (fun _ => []) (fun _ => []) ["a"]) "a" =
      some ⟨[], []⟩ :=
  (C5_report_data_shape (fun _ => []) (fun _ => []) ["a"]).2.1 "a" (by simp)

/-- C7: two runs identical except for the outcome of one namespace's
deployment-config fetch agree on every other namespace's entry and on the
pods component of every entry, that namespace's own included. -/
theorem C7_dc_failure_isolation (dcF dcF2 : String → List DCSummary)
    (podF : String → List PodSummary) (ns_list : List String) (ns0 : String)
    (h : ∀ ns, ns ≠ ns0 → dcF ns = dcF2 ns) :
    (∀ k, k ≠ ns0 →
       dictLookup (buildReportData dcF podF ns_list) k =
         dictLookup (buildReportData dcF2 podF ns_list) k)
  ∧ (∀ k, (dictLookup (buildReportData dcF podF ns_list) k).map NsData.pods =
       (dictLookup (buildReportData dcF2 podF ns_list) k).map NsData.pods) := by
  constructor
  · intro k hk
    rw [buildReportData_lookup, buildReportData_lookup, h k hk]
  · intro k
    rw [buildReportData_lookup, buildReportData_lookup]
    by_cases hk : k ∈ ns_list <;> simp [hk]

/-- C7 witness: changing one namespace's deployment-config outcome leaves
that namespace's pods entry unchanged. -/
theorem C7_dc_failure_isolation_witness :
    (dictLookup (buildReportData (fun _ => [])
        (fun _ => [⟨"p", "Running", "0m"⟩]) ["good", "bad"]) "bad").map NsData.pods =
    (dictLookup (buildReportData (fun ns => if ns = "bad" then [⟨"x", 1, "0m"⟩] else [])
        (fun _ => [⟨"p", "Running", "0m"⟩]) ["good", "bad"]) "bad").map NsData.pods :=
  (C7_dc_failure_isolation (fun _ => [])
    (fun ns => if ns = "bad" then [⟨"x", 1, "0m"⟩] else [])
    (fun _ => [⟨"p", "Running", "0m"⟩]) ["good", "bad"] "bad"
    (fun ns hns => by simp [hns])).2 "bad"

/-- C8: two invocations of the report builder on the same report data are
identical except for the interpolated generation-timestamp string: they
share a common prefix and a common suffix that depend only on the input
data. -/
theorem C8_report_deterministic_modulo_timestamp (d : ReportData) (ts1 ts2 : String) :
    ∃ pre post,
      build_report ts1 d = pre ++ (ts1 ++ post)
    ∧ build_report ts2 d = pre ++ (ts2 ++ post) := by
  refine ⟨fixedHead,
    "</p>\n" ++ String.join (d.map (fun p => nsSection p.1 p.2)) ++ "</div></body></html>",
    ?_, ?_⟩ <;> simp [build_report, String.append_assoc]

/-- C9: a deployment-config item with valid metadata but no `status` object
or no `status.replicas` field is kept with replicas 0, whereas a pod item
whose `status` or `status.phase` is missing makes the pod item raise and so
empties the whole namespace's pod result. -/
theorem C9_missing_status_asymmetry (parse : String → Option Int) (now : Int)
    (item : Item) (md : Metadata) (n ts : String) (c : Int)
    (hmd : item.metadata = some md) (hn : md.name = some n)
    (hts : md.creationTimestamp = some ts) (hc : parse ts = some c) :
    (item.status = none → item.status.bind (fun s => s.replicas) = none)
  ∧ (∀ s, item.status = some s → s.replicas = none →
       item.status.bind (fun s => s.replicas) = none)
  ∧ (item.status.bind (fun s => s.replicas) = none →
       dcItem parse now item = Except.ok ⟨n, 0, get_age (now - c)⟩
     ∧ get_deploymentconfigs parse now (Except.ok ⟨some [item]⟩) =
         [⟨n, 0, get_age (now - c)⟩])
  ∧ (item.status.bind (fun s => s.phase) = none →
       podItem parse now item = Except.error ()
     ∧ get_pods parse now (Except.ok ⟨some [item]⟩) = []) := by
  refine ⟨?_, ?_, ?_, ?_⟩
  · intro h
    simp [h]
  · intro s hs hr
    simp [hs, hr]
  · intro h
    have hdc : dcItem parse now item = Except.ok ⟨n, 0, get_age (now - c)⟩ := by
      simp [dcItem, hmd, hn, hts, hc, h]
    refine ⟨hdc, ?_⟩
    simp [get_deploymentconfigs, dcBody, mapME, hdc]
  · intro h
    have hpi : podItem parse now item = Except.error () := by
      cases hst : item.status with
      | none => simp [podItem, hmd, hn, hst]
      | some s =>
        have hph : s.phase = none := by simpa [hst] using h
        simp [podItem, hmd, hn, hst, hph]
    refine ⟨hpi, ?_⟩
    simp [get_pods, podBody, mapME, hpi]

/-- C9 witness: a status-less deployment-config item with valid metadata is
reported with replicas 0. -/
theorem C9_missing_status_asymmetry_witness :
    get_deploymentconfigs (fun _ => some 0) 0
      (Except.ok ⟨some [⟨some ⟨some "n", some "ts"⟩, none⟩]⟩) =
      [⟨"n", 0, get_age (0 - 0)⟩] :=
  ((C9_missing_status_asymmetry (fun _ => some 0) 0
      ⟨some ⟨some "n", some "ts"⟩, none⟩ ⟨some "n", some "ts"⟩ "n" "ts" 0
      rfl rfl rfl rfl).2.2.1 rfl).2

/-- The fixed header text that follows the `<!DOCTYPE html>` token. -/
def fixedHeadRest : String :=
  "\n<html lang=\"en\">\n<head>\n  <meta charset=\"utf-8\">\n  <title>OpenShift Namespace Report</title>\n  <link rel=\"stylesheet\" href=\"" ++
  BOOTSTRAP_CDN ++
  "\">\n</head>\n<body>\n<div class=\"container my-4\">\n  <h1 class=\"mb-4\">OpenShift Namespace Report</h1>\n  <p>Generated: "

/-- The header literal splits right after the `<!DOCTYPE html>` token. -/
theorem fixedHead_decomp : fixedHead = "<!DOCTYPE html>" ++ fixedHeadRest := rfl

/-- Every built report starts with the doctype token, ends with the closing
html tag, and is non-empty. -/
theorem build_report_decomp (ts : String) (d : ReportData) :
    (∃ s, build_report ts d = "<!DOCTYPE html>" ++ s)
  ∧ (∃ t, build_report ts d = t ++ "</html>")
  ∧ build_report ts d ≠ "" := by
  have hstart : build_report ts d = "<!DOCTYPE html>" ++
      (fixedHeadRest ++ ts ++ "</p>\n" ++
       String.join (d.map (fun p => nsSection p.1 p.2)) ++ "</div></body></html>") := by
    rw [build_report, fixedHead_decomp]
    simp [String.append_assoc]
  have hends : ("</div></body>" : String) ++ "</html>" = "</div></body></html>" := rfl
  refine ⟨⟨_, hstart⟩, ?_, ?_⟩
  · refine ⟨fixedHead ++ ts ++ "</p>\n" ++
      String.join (d.map (fun p => nsSection p.1 p.2)) ++ "</div></body>", ?_⟩
    rw [build_report, ← hends]
    simp [String.append_assoc]
  · intro hc
    rw [hc] at hstart
    have hlen := congrArg String.length hstart
    rw [String.length_append] at hlen
    have h0 : ("" : String).length = 0 := rfl
    have h15 : ("<!DOCTYPE html>" : String).length = 15 := rfl
    omega

/-- C6: an Ansible-mode run whose argument object has no `output` key (or a
falsy empty-string one) that completes successfully yields a result object
with `changed = false` and a non-empty `report` field that starts with
`<!DOCTYPE html>` and ends with `</html>`. -/
theorem C6_ansible_report_mode (env : Env) (args : AnsibleArgs)
    (hout : args.output = none ∨ args.output = some "") (r : AnsibleResult)
    (h : main_ansible_core env args = Except.ok r) :
    r.changed = false
  ∧ ∃ html, r.report = some html ∧ html ≠ ""
      ∧ (∃ s, html = "<!DOCTYPE html>" ++ s)
      ∧ (∃ t, html = t ++ "</html>") := by
  cases hg : get_namespaces env.nsResp args.namespaces with
  | error e =>
    simp [main_ansible_core, pipeline, hg] at h
  | ok ns_list =>
    rcases hout with ho | ho <;>
      simp [main_ansible_core, pipeline, hg, ho] at h <;>
      subst h <;>
      exact ⟨rfl, build_report env.nowStr _, rfl,
        (build_report_decomp env.nowStr _).2.2,
        (build_report_decomp env.nowStr _).1,
        (build_report_decomp env.nowStr _).2.1⟩

/-- C6 witness: a concrete Ansible-mode run over an empty cluster with no
`output` argument. -/
theorem C6_ansible_report_mode_witness :
    ∃ r : AnsibleResult,
      main_ansible_core
        ⟨Except.ok ⟨some []⟩, fun _ => Except.error (), fun _ => Except.error (),
         fun _ => none, 0, "2024-01-01 00:00:00"⟩ ⟨none, none⟩ = Except.ok r
    ∧ r.changed = false
    ∧ ∃ html, r.report = some html ∧ html ≠ "" := by
  refine ⟨⟨false, none, some (build_report "2024-01-01 00:00:00" [])⟩, rfl, ?_⟩
  have h := C6_ansible_report_mode
    ⟨Except.ok ⟨some []⟩, fun _ => Except.error (), fun _ => Except.error (),
     fun _ => none, 0, "2024-01-01 00:00:00"⟩ ⟨none, none⟩ (Or.inl rfl)
    ⟨false, none, some (build_report "2024-01-01 00:00:00" [])⟩ rfl
  obtain ⟨hc, html, hr, hne, _, _⟩ := h
  exact ⟨hc, html, hr, hne⟩

end OcManage
